import Mathlib

/-!
Verification development for the support-ticket assignment system
(ticket_assignment.py).  The Python source is shallowly embedded:

* Python dicts with insertion order become association lists;
* Python floats become exact values: rational-valued scorers stay in ℚ,
  and the scorers using exp / sqrt live in ℝ;
* the stateful greedy allocation loop becomes structural recursion with
  explicit state (the per-agent in-batch assignment counters).
-/

/-- Agent record, mirroring the agent objects of dataset.json consumed by
the Python code.  The skills dict is modelled as an insertion-ordered
association list from skill identifier to proficiency level. -/
structure Agent where
  agent_id : String
  name : String
  skills : List (String × Int)
  current_load : Nat
  availability_status : String
  experience_level : Int

/-- Ticket record. -/
structure Ticket where
  ticket_id : String
  title : String
  description : String

/-- Assignment output record produced by assign_tickets. -/
structure Assignment where
  ticket_id : String
  title : String
  assigned_agent_id : String
  rationale : String
deriving DecidableEq

/-- The score_details dict built by calculate_composite_score_with_fairness. -/
structure ScoreDetails where
  skill_score : ℝ
  workload_score : ℝ
  experience_score : ℚ
  ticket_priority : ℚ
  matched_skills : List String
  current_assignments : Nat
  skill_penalty : ℝ
  composite_score : ℝ

/-- Substring test on character lists: Python s2 in s1. -/
def listContainsSub (hay needle : List Char) : Bool :=
  (List.range (hay.length + 1)).any fun i => needle.isPrefixOf (hay.drop i)

/-- Python needle in hay for strings. -/
def strContains (hay needle : String) : Bool :=
  listContainsSub hay.toList needle.toList

/-- Python regex word character (ASCII fragment of backslash-w). -/
def isWordChar (c : Char) : Bool := c.isAlphanum || c = '_'

/-- Word-boundary search, modelling re.search of a term wrapped in
word-boundary anchors, as done by has_domain_term.  This model is exact
for the terms used by the source, all of which begin and end with a word
character. -/
def wordBoundarySearch (hay needle : String) : Bool :=
  let h := hay.toList
  let n := needle.toList
  (List.range (h.length + 1)).any fun i =>
    n.isPrefixOf (h.drop i)
      && (decide (i = 0) || !isWordChar (h.getD (i - 1) ' '))
      && (decide (h.length ≤ i + n.length) || !isWordChar (h.getD (i + n.length) ' '))

/-- has_domain_term from the source: whether the text contains any of the
terms as a whole word or phrase. -/
def has_domain_term (text : String) (terms : List String) : Bool :=
  terms.any fun term => wordBoundarySearch text term

/-- Lowercasing performed directly on the character data.  The source
lowercases with the str.lower method; this data-level map is its meaning
on the ASCII text the system handles, and unlike the position-based
library function it evaluates inside the kernel. -/
def lowerStr (s : String) : String := String.mk (s.toList.map Char.toLower)

/-- Helper for whitespace splitting: flush the pending token. -/
def splitFlush (st : List Char × List String) : List String :=
  if st.1 = [] then st.2 else String.mk st.1 :: st.2

/-- Helper for whitespace splitting: process one character. -/
def splitStep (c : Char) (st : List Char × List String) : List Char × List String :=
  if c.isWhitespace then ([], splitFlush st) else (c :: st.1, st.2)

/-- Python str.split with no arguments: maximal runs of non-whitespace
characters, empty tokens never produced. -/
def splitWhitespace (l : List Char) : List String :=
  splitFlush (l.foldr splitStep ([], []))

/-- Combined lowercased ticket text used throughout the source. -/
def ticketText (t : Ticket) : String :=
  lowerStr (t.title ++ " " ++ t.description)

/-- Stop-word set of extract_keywords_from_ticket. -/
def stop_words : List String :=
  ["the", "a", "an", "and", "or", "but", "in", "on", "at", "to", "for", "of",
   "with", "by", "is", "are", "was", "were", "be", "been", "have", "has",
   "had", "do", "does", "did", "will", "would", "could", "should", "may",
   "might", "must", "can", "this", "that", "these", "those", "we", "they",
   "it", "he", "she", "you", "i", "we", "our", "their", "his", "her",
   "your", "my"]

/-- Replacement of every character that is neither a word character nor
whitespace by a space, modelling re.sub of the negated word-or-space
class in extract_keywords_from_ticket. -/
def cleanChar (c : Char) : Char :=
  if isWordChar c || c.isWhitespace then c else ' '

/-- extract_keywords_from_ticket: lowercase, strip punctuation, split on
whitespace, keep tokens of length above 2 that are not stop words. -/
def extract_keywords_from_ticket (t : Ticket) : List String :=
  let text := ticketText t
  let words := splitWhitespace (text.toList.map cleanChar)
  words.filter fun word => decide (2 < word.length) && !(stop_words.contains word)

/-- The static skill keyword table built by _build_skill_keywords. -/
def skill_keywords : List (String × List String) :=
  [("Networking", ["network", "connectivity", "connection", "internet", "lan", "wan"]),
   ("VPN_Troubleshooting", ["vpn", "remote", "tunnel", "authentication", "dropped", "disconnection"]),
   ("Network_Security", ["security", "firewall", "intrusion", "attack", "breach"]),
   ("Network_Monitoring", ["monitoring", "performance", "bandwidth", "latency"]),
   ("Switch_Configuration", ["switch", "vlan", "port", "configuration"]),
   ("Routing_Protocols", ["routing", "protocol", "gateway", "route"]),
   ("Cisco_IOS", ["cisco", "ios", "router", "switch"]),
   ("DNS_Configuration", ["dns", "domain", "resolution", "nslookup"]),
   ("Network_Cabling", ["cable", "ethernet", "physical", "wiring"]),
   ("Endpoint_Security", ["endpoint", "malware", "virus", "protection"]),
   ("Antivirus_Malware", ["antivirus", "malware", "virus", "threat", "infection"]),
   ("Phishing_Analysis", ["phishing", "email", "suspicious", "spam", "impersonating"]),
   ("Security_Audits", ["audit", "compliance", "security", "policy"]),
   ("SIEM_Logging", ["logging", "log", "siem", "monitoring", "events"]),
   ("Identity_Management", ["identity", "access", "permissions", "group"]),
   ("Firewall_Configuration", ["firewall", "port", "rule", "block", "allow"]),
   ("Windows_Server_2022", ["windows", "server", "2022", "domain"]),
   ("Active_Directory", ["active directory", "ad", "domain", "login", "authentication", "account", "user", "sso"]),
   ("Microsoft_365", ["microsoft", "365", "office", "outlook", "email", "teams"]),
   ("SharePoint_Online", ["sharepoint", "collaboration", "document", "site"]),
   ("PowerShell_Scripting", ["powershell", "script", "automation", "cmdlet"]),
   ("Endpoint_Management", ["endpoint", "device", "management", "policy"]),
   ("Windows_OS", ["windows", "desktop", "workstation", "pc"]),
   ("Hardware_Diagnostics", ["hardware", "diagnostic", "component", "failure", "repair"]),
   ("Laptop_Repair", ["laptop", "notebook", "portable", "mobile", "boot", "repair"]),
   ("Printer_Troubleshooting", ["printer", "print", "queue", "toner", "paper"]),
   ("Database_SQL", ["database", "sql", "query", "table", "performance", "slow"]),
   ("ETL_Processes", ["etl", "data", "extract", "transform", "load"]),
   ("Data_Warehousing", ["warehouse", "data", "analytics", "reporting"]),
   ("PowerBI_Tableau", ["powerbi", "tableau", "visualization", "dashboard"]),
   ("Cloud_AWS", ["aws", "amazon", "cloud", "ec2", "s3"]),
   ("Cloud_Azure", ["azure", "microsoft", "cloud", "app service", "website"]),
   ("DevOps_CI_CD", ["devops", "jenkins", "ci", "cd", "deployment", "build"]),
   ("Kubernetes_Docker", ["kubernetes", "docker", "container", "orchestration"]),
   ("Linux_Administration", ["linux", "unix", "server", "permission", "chmod", "directory"]),
   ("Mac_OS", ["mac", "macos", "apple", "macbook", "samba"]),
   ("Python_Scripting", ["python", "script", "automation", "code"]),
   ("SaaS_Integrations", ["saas", "integration", "api", "third-party"]),
   ("API_Troubleshooting", ["api", "rest", "web service", "integration"]),
   ("Web_Server_Apache_Nginx", ["web server", "apache", "nginx", "http"]),
   ("SSL_Certificates", ["ssl", "certificate", "https", "encryption"]),
   ("Voice_VoIP", ["voice", "voip", "phone", "calling", "sip"]),
   ("Virtualization_VMware", ["vmware", "virtual", "vm", "hypervisor"]),
   ("Software_Licensing", ["license", "software", "activation", "key"])]

/-- Lookup in the skill keyword table, defaulting to the empty list as in
self.skill_keywords.get(skill, []). -/
def skillKeywordsFor (skill : String) : List String :=
  (((skill_keywords.find? fun p => p.1 == skill).map Prod.snd)).getD []

/-- Domain detection predicates computed at the top of
calculate_skill_match_score. -/
def is_linux_ticket (t : Ticket) : Bool :=
  has_domain_term (ticketText t) ["linux", "unix", "chmod", "directory permissions"]

def is_windows_ticket (t : Ticket) : Bool :=
  has_domain_term (ticketText t) ["windows", "active directory", "outlook", "microsoft"]

def is_mac_ticket (t : Ticket) : Bool :=
  has_domain_term (ticketText t) ["mac", "macos", "macbook", "samba"]

def is_security_ticket (t : Ticket) : Bool :=
  has_domain_term (ticketText t) ["security", "phishing", "attack", "breach", "locked", "suspicious"]

def is_hardware_ticket (t : Ticket) : Bool :=
  has_domain_term (ticketText t) ["laptop", "hardware", "boot", "printer", "diagnostic"]

def is_network_ticket (t : Ticket) : Bool :=
  has_domain_term (ticketText t) ["network", "vpn", "connection", "firewall", "dns"]

def is_database_ticket (t : Ticket) : Bool :=
  has_domain_term (ticketText t) ["database", "sql", "query", "performance", "slow"]

def is_cloud_ticket (t : Ticket) : Bool :=
  has_domain_term (ticketText t) ["azure", "aws", "cloud", "website", "app service"]

/-- Domain boost or penalty chain of calculate_skill_match_score, with the
exact if-elif branch order of the source. -/
def domain_multiplier (t : Ticket) (skill : String) : ℚ :=
  if strContains skill "Linux" && is_linux_ticket t then 2
  else if strContains skill "Linux" && is_windows_ticket t then 0.3
  else if (["Windows", "Active_Directory", "Microsoft"].any fun w => strContains skill w)
      && is_windows_ticket t then 2
  else if (["Windows", "Active_Directory", "Microsoft"].any fun w => strContains skill w)
      && is_linux_ticket t then 0.3
  else if strContains skill "Mac" && is_mac_ticket t then 2
  else if (["Security", "Phishing", "Antivirus", "Firewall"].any fun w => strContains skill w)
      && is_security_ticket t then 1.8
  else if (["Hardware", "Laptop", "Printer"].any fun w => strContains skill w)
      && is_hardware_ticket t then 1.8
  else if (["Network", "VPN", "DNS", "Routing"].any fun w => strContains skill w)
      && is_network_ticket t then 1.8
  else if strContains skill "Database" && is_database_ticket t then 2
  else if (["Cloud", "Azure", "AWS", "DevOps"].any fun w => strContains skill w)
      && is_cloud_ticket t then 1.8
  else 1

/-- Words of a skill identifier: lowercase, underscores to spaces, split. -/
def skill_name_words (skill : String) : List String :=
  splitWhitespace ((lowerStr skill).toList.map fun c => if c = '_' then ' ' else c)

/-- Raw per-skill text score of calculate_skill_match_score: +3 per lexicon
keyword occurring verbatim in the ticket text, +2 per exact keyword-token
equality and +1 per partial (either-way substring) keyword-token overlap
over all pairs, +2 per skill-name word occurring in the token list. -/
def raw_skill_score (t : Ticket) (skill : String) : ℕ :=
  let text := ticketText t
  let tks := extract_keywords_from_ticket t
  let kws := skillKeywordsFor skill
  3 * kws.countP (fun k => strContains text k)
    + (kws.map fun k =>
        (tks.map fun w =>
          if k = w then 2 else if strContains w k || strContains k w then 1 else 0).sum).sum
    + 2 * (skill_name_words skill).countP (fun w => tks.contains w)

/-- Per-agent skill loop of calculate_skill_match_score: accumulates the
weighted total and the matched-skill list in skill order. -/
def skillLoop (t : Ticket) : List (String × Int) → ℚ × List String
  | [] => (0, [])
  | p :: ps =>
    let raw := raw_skill_score t p.1
    let rest := skillLoop t ps
    if 0 < raw then
      ((raw : ℚ) * (p.2 : ℚ) * domain_multiplier t p.1 + rest.1, p.1 :: rest.2)
    else rest

/-- calculate_skill_match_score: total weighted score normalized by the
square root of the number of held skills (0 for a skill-less agent),
paired with the matched-skill list. -/
noncomputable def calculate_skill_match_score (t : Ticket) (a : Agent) : ℝ × List String :=
  let r := skillLoop t a.skills
  if 0 < a.skills.length then (((r.1 : ℚ) : ℝ) / Real.sqrt (a.skills.length : ℝ), r.2)
  else (0, r.2)

/-- calculate_workload_score: exponential load decay with a hard floor of
0.1 at total load 8, multiplied by an availability factor of 1 for
Available agents and 0.2 for all others. -/
noncomputable def calculate_workload_score (a : Agent) (current_assignments : Nat) : ℝ :=
  let total_load := a.current_load + current_assignments
  let load_score : ℝ :=
    if 8 ≤ total_load then 0.1 else Real.exp (-((total_load : ℝ) / 3))
  let availability_factor : ℝ := if a.availability_status = "Available" then 1 else 0.2
  load_score * availability_factor

/-- calculate_experience_score: experience level capped at 15 and divided
by 15.  The source applies no lower clamp. -/
def calculate_experience_score (a : Agent) : ℚ :=
  ((min a.experience_level 15 : Int) : ℚ) / 15

/-- High-priority keyword list of calculate_ticket_priority. -/
def high_priority_keywords : List String :=
  ["critical", "urgent", "emergency", "down", "outage", "breach", "security",
   "production", "business-critical", "attack", "locked", "unreachable",
   "slow performance", "phishing"]

/-- Medium-priority keyword list of calculate_ticket_priority. -/
def medium_priority_keywords : List String :=
  ["unable", "error", "problem", "issue", "failed", "not working",
   "access denied", "boot", "laptop"]

/-- Whether a priority keyword occurs in the lowercased title or in the
lowercased description of a ticket. -/
def ticketMatches (t : Ticket) (k : String) : Bool :=
  strContains (lowerStr t.title) k || strContains (lowerStr t.description) k

/-- calculate_ticket_priority: base 1.0, +2.0 per matched high-priority
keyword, +1.0 per matched medium-priority keyword, capped at 5.0. -/
def calculate_ticket_priority (t : Ticket) : ℚ :=
  min (1 + (high_priority_keywords.map fun k => if ticketMatches t k then (2 : ℚ) else 0).sum
         + (medium_priority_keywords.map fun k => if ticketMatches t k then (1 : ℚ) else 0).sum)
    5

open Classical in
/-- calculate_composite_score_with_fairness: weighted combination of the
four scorers with the skill-floor penalty, returning the composite score
and the score-details record. -/
noncomputable def calculate_composite_score_with_fairness
    (t : Ticket) (a : Agent) (current_assignments : Nat) : ℝ × ScoreDetails :=
  let skill := calculate_skill_match_score t a
  let workload_score := calculate_workload_score a current_assignments
  let experience_score := calculate_experience_score a
  let ticket_priority := calculate_ticket_priority t
  let skill_penalty : ℝ := if skill.1 < 5 then 0.3 else 1
  let composite_score :=
    (skill.1 * 0.6 + workload_score * 0.3 + (experience_score : ℝ) * 0.1)
      * (ticket_priority : ℝ) * skill_penalty
  (composite_score,
   ⟨skill.1, workload_score, experience_score, ticket_priority, skill.2,
    current_assignments, skill_penalty, composite_score⟩)

/-- Proficiency lookup in the skills association list, as the dict access
in _generate_rationale. -/
def lookupSkillLevel (a : Agent) (s : String) : Int :=
  (((a.skills.find? fun p => p.1 == s).map Prod.snd)).getD 0

/-- Underscores of a skill identifier replaced with spaces for display. -/
def skillDisplay (s : String) : String :=
  String.mk (s.toList.map fun c => if c = '_' then ' ' else c)

/-- The _generate_rationale formatting function.  The ticket argument is
unused by the source body and is kept for signature fidelity. -/
def generate_rationale (_t : Ticket) (a : Agent) (d : ScoreDetails) : String :=
  let top_skills := (d.matched_skills.take 3).map fun s =>
    "\x27" ++ skillDisplay s ++ "\x27 (" ++ toString (lookupSkillLevel a s) ++ ")"
  let parts1 := ["Assigned to " ++ a.name ++ " (" ++ a.agent_id ++ ")"]
  let parts2 :=
    if top_skills ≠ [] then
      parts1 ++ ["based on strong skills in " ++ String.intercalate " and " top_skills]
    else parts1
  let parts3 :=
    if a.current_load ≤ 2 then parts2 ++ ["and low current workload"]
    else if a.current_load ≤ 4 then parts2 ++ ["and moderate workload"]
    else parts2
  let parts4 :=
    if 9 ≤ a.experience_level then parts3 ++ ["with extensive experience"]
    else if 7 ≤ a.experience_level then parts3 ++ ["with solid experience"]
    else parts3
  String.intercalate ", " parts4 ++ "."

/-- Descending-priority comparison used as the sort relation: the Python
sorted call with a priority key and reverse set orders a ticket before
another precisely when its priority is at least the priority of the
other, keeping ties in input order (stable sort). -/
def ticket_priority_ge (t u : Ticket) : Prop :=
  calculate_ticket_priority u ≤ calculate_ticket_priority t

instance : DecidableRel ticket_priority_ge := fun t u =>
  inferInstanceAs (Decidable (calculate_ticket_priority u ≤ calculate_ticket_priority t))

instance : IsTotal Ticket ticket_priority_ge :=
  ⟨fun a b => le_total (calculate_ticket_priority b) (calculate_ticket_priority a)⟩

instance : IsTrans Ticket ticket_priority_ge :=
  ⟨fun _ _ _ hab hbc => le_trans hbc hab⟩

/-- The stable descending sort of the ticket batch performed at the top of
assign_tickets.  Insertion sort with the relation above is a stable sort
by descending priority, which is the observable behaviour of the Python
sorted builtin with a key and reverse set. -/
def sort_tickets_by_priority (ts : List Ticket) : List Ticket :=
  List.insertionSort ticket_priority_ge ts

/-- Increment of one agent counter in agent_assignment_counts. -/
def bump (counts : String → Nat) (id : String) : String → Nat :=
  fun x => if x = id then counts x + 1 else counts x

open Classical in
/-- Inner per-ticket selection loop of assign_tickets: sweeps the agent
list, skipping every agent whose status is not Available, and keeps the
first agent whose composite score strictly exceeds the running best
(initialised to -1), together with the final best score. -/
noncomputable def findBest (t : Ticket) (counts : String → Nat) :
    List Agent → ℝ → Option (Agent × ScoreDetails) → ℝ × Option (Agent × ScoreDetails)
  | [], best_score, best => (best_score, best)
  | agent :: rest, best_score, best =>
    if agent.availability_status ≠ "Available" then
      findBest t counts rest best_score best
    else
      let sd := calculate_composite_score_with_fairness t agent (counts agent.agent_id)
      if best_score < sd.1 then findBest t counts rest sd.1 (some (agent, sd.2))
      else findBest t counts rest best_score best

/-- The warning line printed by assign_tickets for an unassignable ticket. -/
def warningFor (t : Ticket) : String :=
  "Warning: Could not assign ticket " ++ t.ticket_id ++ " - no available agents"

/-- Outer loop of assign_tickets over the sorted tickets, threading the
per-agent in-batch assignment counters and collecting the produced
assignments together with the warnings printed for skipped tickets. -/
noncomputable def assignLoop (agents : List Agent) :
    List Ticket → (String → Nat) → List Assignment × List String
  | [], _ => ([], [])
  | t :: ts, counts =>
    match findBest t counts agents (-1) none with
    | (_, some (agent, details)) =>
      let rest := assignLoop agents ts (bump counts agent.agent_id)
      (⟨t.ticket_id, t.title, agent.agent_id, generate_rationale t agent details⟩ :: rest.1,
       rest.2)
    | (_, none) =>
      let rest := assignLoop agents ts counts
      (rest.1, warningFor t :: rest.2)

/-- assign_tickets: the list of assignments produced for a batch. -/
noncomputable def assign_tickets (agents : List Agent) (tickets : List Ticket) : List Assignment :=
  (assignLoop agents (sort_tickets_by_priority tickets) fun _ => 0).1

/-- The warnings surfaced during one assign_tickets run, in order. -/
noncomputable def assign_warnings (agents : List Agent) (tickets : List Ticket) : List String :=
  (assignLoop agents (sort_tickets_by_priority tickets) fun _ => 0).2

/-- Well-formedness of an agent record per the data model: skill
proficiency levels and the experience level are non-negative integers. -/
def Agent.WF (a : Agent) : Prop :=
  (∀ p ∈ a.skills, (0 : Int) ≤ p.2) ∧ 0 ≤ a.experience_level

instance (a : Agent) : Decidable a.WF :=
  inferInstanceAs (Decidable (_ ∧ _))

lemma domain_multiplier_pos (t : Ticket) (s : String) : 0 < domain_multiplier t s := by
  unfold domain_multiplier
  repeat' split
  all_goals norm_num

lemma skillLoop_fst_nonneg (t : Ticket) (skills : List (String × Int))
    (h : ∀ p ∈ skills, (0 : Int) ≤ p.2) : 0 ≤ (skillLoop t skills).1 := by
  induction skills with
  | nil => simp [skillLoop]
  | cons p ps ih =>
    have hp : (0 : Int) ≤ p.2 := h p (by simp)
    have hps : ∀ q ∈ ps, (0 : Int) ≤ q.2 := fun q hq => h q (by simp [hq])
    simp only [skillLoop]
    split
    · have h1 : (0 : ℚ) ≤ (raw_skill_score t p.1 : ℚ) := by positivity
      have h2 : (0 : ℚ) ≤ (p.2 : ℚ) := by exact_mod_cast hp
      exact add_nonneg (mul_nonneg (mul_nonneg h1 h2) (domain_multiplier_pos t p.1).le)
        (ih hps)
    · exact ih hps

lemma skillLoop_snd (t : Ticket) (skills : List (String × Int)) :
    (skillLoop t skills).2
      = (skills.filter fun p => decide (0 < raw_skill_score t p.1)).map Prod.fst := by
  induction skills with
  | nil => simp [skillLoop]
  | cons p ps ih =>
    simp only [skillLoop, List.filter_cons]
    by_cases h : 0 < raw_skill_score t p.1
    · simp [h, ih]
    · simp [h, ih]

lemma skill_match_score_nonneg (t : Ticket) (a : Agent)
    (h : ∀ p ∈ a.skills, (0 : Int) ≤ p.2) : 0 ≤ (calculate_skill_match_score t a).1 := by
  unfold calculate_skill_match_score
  split
  · have h1 : (0 : ℝ) ≤ ((skillLoop t a.skills).1 : ℝ) := by
      exact_mod_cast skillLoop_fst_nonneg t a.skills h
    exact div_nonneg h1 (Real.sqrt_nonneg _)
  · simp

lemma skill_match_snd (t : Ticket) (a : Agent) :
    (calculate_skill_match_score t a).2
      = (a.skills.filter fun p => decide (0 < raw_skill_score t p.1)).map Prod.fst := by
  unfold calculate_skill_match_score
  split <;> simp [skillLoop_snd]

lemma calculate_workload_score_pos (a : Agent) (c : Nat) :
    0 < calculate_workload_score a c := by
  unfold calculate_workload_score
  apply mul_pos
  · split
    · norm_num
    · exact Real.exp_pos _
  · split
    · norm_num
    · norm_num

lemma experience_score_nonneg (a : Agent) (h : 0 ≤ a.experience_level) :
    0 ≤ calculate_experience_score a := by
  unfold calculate_experience_score
  apply div_nonneg _ (by norm_num)
  exact_mod_cast le_min h (by norm_num)

lemma experience_score_le_one (a : Agent) : calculate_experience_score a ≤ 1 := by
  unfold calculate_experience_score
  rw [div_le_one (by norm_num)]
  exact_mod_cast min_le_right a.experience_level 15

lemma sum_ite_count (c : ℚ) (p : String → Bool) (l : List String) :
    (l.map fun k => if p k then c else 0).sum = c * l.countP p := by
  induction l with
  | nil => simp
  | cons a l ih =>
    by_cases h : p a
    · simp only [List.countP_cons, h, ih, List.map_cons, List.sum_cons, if_pos]
      push_cast
      ring
    · simp [List.countP_cons, h, ih]

lemma ticket_priority_eq_counts (t : Ticket) :
    calculate_ticket_priority t
      = min (1 + 2 * (high_priority_keywords.countP (ticketMatches t) : ℚ)
               + (medium_priority_keywords.countP (ticketMatches t) : ℚ)) 5 := by
  unfold calculate_ticket_priority
  rw [sum_ite_count 2 (ticketMatches t), sum_ite_count 1 (ticketMatches t), one_mul]

lemma one_le_ticket_priority (t : Ticket) : 1 ≤ calculate_ticket_priority t := by
  rw [ticket_priority_eq_counts]
  have h1 : (0 : ℚ) ≤ (high_priority_keywords.countP (ticketMatches t) : ℚ) := by positivity
  have h2 : (0 : ℚ) ≤ (medium_priority_keywords.countP (ticketMatches t) : ℚ) := by positivity
  exact le_min (by linarith) (by norm_num)

lemma ticket_priority_le_five (t : Ticket) : calculate_ticket_priority t ≤ 5 := by
  rw [ticket_priority_eq_counts]
  exact min_le_right _ _

lemma ticket_priority_pos (t : Ticket) : 0 < calculate_ticket_priority t :=
  lt_of_lt_of_le one_pos (one_le_ticket_priority t)

lemma composite_score_pos (t : Ticket) (a : Agent) (c : Nat) (h : a.WF) :
    0 < (calculate_composite_score_with_fairness t a c).1 := by
  unfold calculate_composite_score_with_fairness
  dsimp only
  have hs := skill_match_score_nonneg t a h.1
  have hw := calculate_workload_score_pos a c
  have he : (0 : ℝ) ≤ (calculate_experience_score a : ℝ) := by
    exact_mod_cast experience_score_nonneg a h.2
  have hp : (0 : ℝ) < (calculate_ticket_priority t : ℝ) := by
    exact_mod_cast ticket_priority_pos t
  apply mul_pos (mul_pos (by nlinarith) hp)
  split <;> norm_num

lemma findBest_spec (t : Ticket) (counts : String → Nat) (l : List Agent) :
    ∀ (bs : ℝ) (acc : Option (Agent × ScoreDetails)),
      (findBest t counts l bs acc = (bs, acc) ∧
        ∀ a ∈ l, a.availability_status = "Available" →
          (calculate_composite_score_with_fairness t a (counts a.agent_id)).1 ≤ bs) ∨
      (∃ ag l1 l2,
        findBest t counts l bs acc
            = ((calculate_composite_score_with_fairness t ag (counts ag.agent_id)).1,
               some (ag, (calculate_composite_score_with_fairness t ag (counts ag.agent_id)).2)) ∧
        l = l1 ++ ag :: l2 ∧ ag.availability_status = "Available" ∧
        bs < (calculate_composite_score_with_fairness t ag (counts ag.agent_id)).1 ∧
        (∀ a ∈ l1, a.availability_status = "Available" →
          (calculate_composite_score_with_fairness t a (counts a.agent_id)).1
            < (calculate_composite_score_with_fairness t ag (counts ag.agent_id)).1) ∧
        (∀ a ∈ l2, a.availability_status = "Available" →
          (calculate_composite_score_with_fairness t a (counts a.agent_id)).1
            ≤ (calculate_composite_score_with_fairness t ag (counts ag.agent_id)).1)) := by
  induction l with
  | nil =>
    intro bs acc
    left
    exact ⟨rfl, by simp⟩
  | cons a rest ih =>
    intro bs acc
    by_cases hav : a.availability_status = "Available"
    · have hcond : ¬(a.availability_status ≠ "Available") := not_not_intro hav
      by_cases hlt : bs < (calculate_composite_score_with_fairness t a (counts a.agent_id)).1
      · have hstep : findBest t counts (a :: rest) bs acc
            = findBest t counts rest
                (calculate_composite_score_with_fairness t a (counts a.agent_id)).1
                (some (a, (calculate_composite_score_with_fairness t a (counts a.agent_id)).2)) := by
          simp only [findBest]
          rw [if_neg hcond, if_pos hlt]
        rcases ih (calculate_composite_score_with_fairness t a (counts a.agent_id)).1
            (some (a, (calculate_composite_score_with_fairness t a (counts a.agent_id)).2)) with
          ⟨heq, hall⟩ | ⟨ag, l1, l2, heq, hsplit, hagav, hbs, hl1, hl2⟩
        · right
          refine ⟨a, [], rest, ?_, rfl, hav, hlt, by simp, hall⟩
          rw [hstep, heq]
        · right
          refine ⟨ag, a :: l1, l2, ?_, by simp [hsplit], hagav, lt_trans hlt hbs, ?_, hl2⟩
          · rw [hstep, heq]
          · intro x hx hxa
            rcases List.mem_cons.mp hx with rfl | hx'
            · exact hbs
            · exact hl1 x hx' hxa
      · have hstep : findBest t counts (a :: rest) bs acc = findBest t counts rest bs acc := by
          simp only [findBest]
          rw [if_neg hcond, if_neg hlt]
        rcases ih bs acc with ⟨heq, hall⟩ | ⟨ag, l1, l2, heq, hsplit, hagav, hbs, hl1, hl2⟩
        · left
          refine ⟨by rw [hstep, heq], ?_⟩
          intro x hx hxa
          rcases List.mem_cons.mp hx with rfl | hx'
          · exact not_lt.mp hlt
          · exact hall x hx' hxa
        · right
          refine ⟨ag, a :: l1, l2, by rw [hstep, heq], by simp [hsplit], hagav, hbs, ?_, hl2⟩
          intro x hx hxa
          rcases List.mem_cons.mp hx with rfl | hx'
          · exact lt_of_le_of_lt (not_lt.mp hlt) hbs
          · exact hl1 x hx' hxa
    · have hcond : a.availability_status ≠ "Available" := hav
      have hstep : findBest t counts (a :: rest) bs acc = findBest t counts rest bs acc := by
        simp only [findBest]
        rw [if_pos hcond]
      rcases ih bs acc with ⟨heq, hall⟩ | ⟨ag, l1, l2, heq, hsplit, hagav, hbs, hl1, hl2⟩
      · left
        refine ⟨by rw [hstep, heq], ?_⟩
        intro x hx hxa
        rcases List.mem_cons.mp hx with rfl | hx'
        · exact absurd hxa hav
        · exact hall x hx' hxa
      · right
        refine ⟨ag, a :: l1, l2, by rw [hstep, heq], by simp [hsplit], hagav, hbs, ?_, hl2⟩
        intro x hx hxa
        rcases List.mem_cons.mp hx with rfl | hx'
        · exact absurd hxa hav
        · exact hl1 x hx' hxa

lemma findBest_mem (t : Ticket) (counts : String → Nat) (l : List Agent) (bs : ℝ)
    (ag : Agent) (d : ScoreDetails)
    (h : findBest t counts l (-1) none = (bs, some (ag, d))) :
    ag ∈ l ∧ ag.availability_status = "Available" := by
  rcases findBest_spec t counts l (-1) none with ⟨heq, _⟩ |
    ⟨ag', l1, l2, heq, hsplit, hagav, _, _, _⟩
  · rw [heq] at h
    simp at h
  · rw [heq] at h
    obtain ⟨-, h2⟩ := Prod.mk.injEq .. ▸ h
    obtain ⟨h3, -⟩ := Prod.mk.injEq .. ▸ (Option.some.injEq .. ▸ h2.symm)
    subst h3
    exact ⟨by simp [hsplit], hagav⟩

lemma findBest_skip_all (t : Ticket) (counts : String → Nat) (l : List Agent)
    (h : ∀ a ∈ l, a.availability_status ≠ "Available") :
    ∀ (bs : ℝ) (acc : Option (Agent × ScoreDetails)), findBest t counts l bs acc = (bs, acc) := by
  induction l with
  | nil => intro bs acc; rfl
  | cons a rest ih =>
    intro bs acc
    have ha : a.availability_status ≠ "Available" := h a (by simp)
    have hrest : ∀ x ∈ rest, x.availability_status ≠ "Available" :=
      fun x hx => h x (by simp [hx])
    simp only [findBest]
    rw [if_pos ha]
    exact ih hrest bs acc

lemma findBest_some_of_avail (t : Ticket) (counts : String → Nat) (l : List Agent)
    (hwf : ∀ a ∈ l, a.WF) (hav : ∃ a ∈ l, a.availability_status = "Available") :
    ∃ ag, ag ∈ l ∧ ag.availability_status = "Available" ∧
      findBest t counts l (-1) none
        = ((calculate_composite_score_with_fairness t ag (counts ag.agent_id)).1,
           some (ag, (calculate_composite_score_with_fairness t ag (counts ag.agent_id)).2)) := by
  rcases findBest_spec t counts l (-1) none with ⟨heq, hall⟩ |
    ⟨ag, l1, l2, heq, hsplit, hagav, _, _, _⟩
  · exfalso
    obtain ⟨a, ha, hava⟩ := hav
    have h1 := hall a ha hava
    have h2 := composite_score_pos t a (counts a.agent_id) (hwf a ha)
    linarith
  · exact ⟨ag, by simp [hsplit], hagav, heq⟩

lemma assignLoop_no_avail (agents : List Agent)
    (h : ∀ a ∈ agents, a.availability_status ≠ "Available") :
    ∀ (ts : List Ticket) (counts : String → Nat),
      assignLoop agents ts counts = ([], ts.map warningFor) := by
  intro ts
  induction ts with
  | nil => intro counts; rfl
  | cons t ts ih =>
    intro counts
    simp only [assignLoop]
    rw [findBest_skip_all t counts agents h (-1) none]
    simp [ih counts]

lemma assignLoop_all_avail (agents : List Agent)
    (hwf : ∀ a ∈ agents, a.WF)
    (hav : ∃ a ∈ agents, a.availability_status = "Available") :
    ∀ (ts : List Ticket) (counts : String → Nat),
      (assignLoop agents ts counts).1.length = ts.length ∧
        (assignLoop agents ts counts).2 = [] := by
  intro ts
  induction ts with
  | nil => intro counts; exact ⟨rfl, rfl⟩
  | cons t ts ih =>
    intro counts
    obtain ⟨ag, -, -, heq⟩ := findBest_some_of_avail t counts agents hwf hav
    simp only [assignLoop]
    rw [heq]
    simpa using ih (bump counts ag.agent_id)

lemma assignLoop_assigned_available (agents : List Agent) :
    ∀ (ts : List Ticket) (counts : String → Nat),
      (assignLoop agents ts counts).1.Forall fun asg =>
        ∃ ag, ag ∈ agents ∧ ag.availability_status = "Available" ∧
          asg.assigned_agent_id = ag.agent_id := by
  intro ts
  induction ts with
  | nil => intro counts; simp [assignLoop, List.Forall]
  | cons t ts ih =>
    intro counts
    cases hfb : findBest t counts agents (-1) none with
    | mk bs best =>
      cases best with
      | none =>
        simp only [assignLoop]
        rw [hfb]
        dsimp only
        exact ih counts
      | some p =>
        obtain ⟨ag, d⟩ := p
        obtain ⟨hmem, hagav⟩ := findBest_mem t counts agents bs ag d hfb
        simp only [assignLoop]
        rw [hfb]
        dsimp only
        rw [List.forall_cons]
        exact ⟨⟨ag, hmem, hagav, rfl⟩, ih (bump counts ag.agent_id)⟩

lemma assignLoop_ids_sublist (agents : List Agent) :
    ∀ (ts : List Ticket) (counts : String → Nat),
      List.Sublist ((assignLoop agents ts counts).1.map Assignment.ticket_id)
        (ts.map Ticket.ticket_id) := by
  intro ts
  induction ts with
  | nil => intro counts; simp [assignLoop]
  | cons t ts ih =>
    intro counts
    cases hfb : findBest t counts agents (-1) none with
    | mk bs best =>
      cases best with
      | none =>
        simp only [assignLoop]
        rw [hfb]
        dsimp only
        exact List.Sublist.cons _ (ih counts)
      | some p =>
        obtain ⟨ag, d⟩ := p
        simp only [assignLoop]
        rw [hfb]
        dsimp only
        exact List.Sublist.cons₂ _ (ih (bump counts ag.agent_id))

lemma filter_orderedInsert_of_ne (p : ℚ) (a : Ticket) (l : List Ticket)
    (ha : calculate_ticket_priority a ≠ p) :
    (List.orderedInsert ticket_priority_ge a l).filter
        (fun u => decide (calculate_ticket_priority u = p))
      = l.filter fun u => decide (calculate_ticket_priority u = p) := by
  induction l with
  | nil => simp [List.orderedInsert, ha]
  | cons y ys ih =>
    by_cases hr : ticket_priority_ge a y
    · simp [List.orderedInsert, hr, List.filter_cons, ha]
    · simp only [List.orderedInsert, if_neg hr, List.filter_cons, ih]

lemma filter_orderedInsert_of_eq (p : ℚ) (a : Ticket) (l : List Ticket)
    (ha : calculate_ticket_priority a = p) :
    (List.orderedInsert ticket_priority_ge a l).filter
        (fun u => decide (calculate_ticket_priority u = p))
      = a :: l.filter fun u => decide (calculate_ticket_priority u = p) := by
  induction l with
  | nil => simp [List.orderedInsert, ha]
  | cons y ys ih =>
    by_cases hr : ticket_priority_ge a y
    · simp [List.orderedInsert, hr, List.filter_cons, ha]
    · have hy : calculate_ticket_priority y ≠ p := by
        have hlt : calculate_ticket_priority a < calculate_ticket_priority y :=
          not_le.mp hr
        rw [← ha]
        exact ne_of_gt hlt
      simp only [List.orderedInsert, if_neg hr, List.filter_cons, ih]
      simp [hy]

lemma filter_sort_tickets (p : ℚ) (l : List Ticket) :
    (sort_tickets_by_priority l).filter (fun u => decide (calculate_ticket_priority u = p))
      = l.filter fun u => decide (calculate_ticket_priority u = p) := by
  induction l with
  | nil => rfl
  | cons a l ih =>
    simp only [sort_tickets_by_priority, List.insertionSort] at *
    by_cases ha : calculate_ticket_priority a = p
    · rw [filter_orderedInsert_of_eq p a _ ha, ih, List.filter_cons]
      simp [ha]
    · rw [filter_orderedInsert_of_ne p a _ ha, ih, List.filter_cons]
      simp [ha]

lemma exp_two_le_ten : Real.exp 2 ≤ 10 := by
  have h1 : Real.exp 2 = Real.exp 1 * Real.exp 1 := by
    rw [← Real.exp_add]
    norm_num
  have h2 := Real.exp_one_lt_d9
  have h0 := Real.exp_pos 1
  nlinarith

lemma ten_lt_exp_seven_thirds : (10 : ℝ) < Real.exp (7 / 3) := by
  have h1 : Real.exp 7 = Real.exp (7 / 3) ^ (3 : ℕ) := by
    rw [← Real.exp_nat_mul]
    norm_num
  have h3 : Real.exp 7 = Real.exp 1 ^ (7 : ℕ) := by
    rw [← Real.exp_nat_mul]
    norm_num
  have h4 := Real.exp_one_gt_d9
  have h5 : ((2.7182818283 : ℝ)) ^ (7 : ℕ) < Real.exp 1 ^ (7 : ℕ) :=
    pow_lt_pow_left₀ h4 (by norm_num) (by norm_num)
  have h6 : (1000 : ℝ) < (2.7182818283 : ℝ) ^ (7 : ℕ) := by norm_num
  by_contra hle
  push_neg at hle
  have h7 : Real.exp (7 / 3) ^ (3 : ℕ) ≤ (10 : ℝ) ^ (3 : ℕ) :=
    pow_le_pow_left₀ (Real.exp_pos _).le hle 3
  have h8 : ((10 : ℝ)) ^ (3 : ℕ) = 1000 := by norm_num
  nlinarith

lemma load_floor_le_exp (n : Nat) (hn : n ≤ 6) :
    (0.1 : ℝ) ≤ Real.exp (-((n : ℝ) / 3)) := by
  have h1 : Real.exp (-(2 : ℝ)) ≤ Real.exp (-((n : ℝ) / 3)) := by
    apply Real.exp_le_exp.mpr
    have : (n : ℝ) ≤ 6 := by exact_mod_cast hn
    linarith
  have h2 : (0.1 : ℝ) ≤ Real.exp (-(2 : ℝ)) := by
    rw [Real.exp_neg]
    rw [le_inv_comm₀ (by norm_num) (Real.exp_pos 2)]
    calc Real.exp 2 ≤ 10 := exp_two_le_ten
    _ = (0.1 : ℝ)⁻¹ := by norm_num
  linarith

lemma exp_seven_thirds_lt_floor : Real.exp (-((7 : ℝ) / 3)) < 0.1 := by
  rw [Real.exp_neg]
  have h1 := ten_lt_exp_seven_thirds
  have h2 : (0.1 : ℝ) = (10 : ℝ)⁻¹ := by norm_num
  rw [h2]
  exact inv_strictAnti₀ (by norm_num) h1

/-- C1, counterexample.  The claim states that the workload score is
non-increasing in committed_load + in_batch_count and equals exactly 0.1
once that sum reaches 8 regardless of availability.  Both parts fail on
the code: for an Available agent the score at total load 7 is
exp(-7/3) ≈ 0.0970, strictly below the hard floor 0.1 returned at total
load 8, so the score increases from 7 to 8; and for a non-Available agent
at total load 8 the availability factor 0.2 makes the score 0.02, not
0.1. -/
theorem C1_counterexample :
    calculate_workload_score ⟨"A1", "a", [], 7, "Available", 0⟩ 0
        < calculate_workload_score ⟨"A2", "b", [], 8, "Available", 0⟩ 0 ∧
    calculate_workload_score ⟨"A3", "c", [], 8, "Busy", 0⟩ 0 = 0.02 ∧
    (0.02 : ℝ) ≠ 0.1 := by
  refine ⟨?_, ?_, by norm_num⟩
  · simp only [calculate_workload_score]
    norm_num
    exact lt_of_lt_of_eq exp_seven_thirds_lt_floor (by norm_num)
  · simp only [calculate_workload_score]
    have hb : ¬(("Busy" : String) = "Available") := by decide
    rw [if_pos (by omega : 8 ≤ 8 + 0), if_neg hb]
    norm_num

/-- C1, amended.  For every agent and in-batch counts c1 ≤ c2, the
workload score at c2 is at most the score at c1 except when the smaller
sum is exactly 7 and the larger is at least 8 (there the hard floor 0.1
exceeds exp(-7/3) and the score strictly increases); and whenever
committed_load + in_batch_count reaches 8 the score equals 0.1 times the
availability factor, i.e. 0.1 for an Available agent and 0.02 for any
other status. -/
theorem C1_workload_amended (a : Agent) (c1 c2 : Nat) (h12 : c1 ≤ c2)
    (h7 : ¬(a.current_load + c1 = 7 ∧ 8 ≤ a.current_load + c2)) :
    calculate_workload_score a c2 ≤ calculate_workload_score a c1 ∧
    (8 ≤ a.current_load + c2 →
      calculate_workload_score a c2
        = 0.1 * (if a.availability_status = "Available" then (1 : ℝ) else 0.2)) := by
  simp only [calculate_workload_score]
  constructor
  · have hf : (0 : ℝ) ≤ (if a.availability_status = "Available" then (1 : ℝ) else 0.2) := by
      split <;> norm_num
    apply mul_le_mul_of_nonneg_right _ hf
    by_cases h8 : 8 ≤ a.current_load + c1
    · have h82 : 8 ≤ a.current_load + c2 := by omega
      rw [if_pos h82, if_pos h8]
    · by_cases h82 : 8 ≤ a.current_load + c2
      · rw [if_pos h82, if_neg h8]
        exact load_floor_le_exp _ (by omega)
      · rw [if_neg h82, if_neg h8]
        apply Real.exp_le_exp.mpr
        have hc : ((a.current_load + c1 : Nat) : ℝ) ≤ ((a.current_load + c2 : Nat) : ℝ) := by
          exact_mod_cast by omega
        linarith
  · intro h8
    rw [if_pos h8]

/-- C1, witness for the amended theorem at a concrete agent. -/
theorem C1_witness :
    calculate_workload_score ⟨"A4", "d", [], 0, "Available", 0⟩ 9
        ≤ calculate_workload_score ⟨"A4", "d", [], 0, "Available", 0⟩ 0 ∧
    calculate_workload_score ⟨"A4", "d", [], 0, "Available", 0⟩ 9
      = 0.1 * (if ("Available" : String) = "Available" then (1 : ℝ) else 0.2) :=
  ⟨(C1_workload_amended ⟨"A4", "d", [], 0, "Available", 0⟩ 0 9 (by norm_num) (by decide)).1,
   (C1_workload_amended ⟨"A4", "d", [], 0, "Available", 0⟩ 0 9 (by norm_num) (by decide)).2
     (by decide)⟩

/-- C2: for every input batch, every produced assignment carries the
agent_id of some agent of the batch whose availability_status is exactly
Available; hence an agent in any other status never appears as
assigned_agent_id, regardless of its scores. -/
theorem C2_unavailable_never_assigned (agents : List Agent) (tickets : List Ticket) :
    (assign_tickets agents tickets).Forall fun asg =>
      ∃ ag, ag ∈ agents ∧ ag.availability_status = "Available" ∧
        asg.assigned_agent_id = ag.agent_id :=
  assignLoop_assigned_available agents (sort_tickets_by_priority tickets) fun _ => 0

/-- C3: with well-formed agent records, a ticket produces no assignment
precisely when no Available agent exists: if no agent is Available, every
ticket is skipped with a warning and the batch still visits all of them;
if some agent is Available, every ticket is assigned and no warning is
produced.  Availability never changes during a run, so the two cases are
exhaustive. -/
theorem C3_skip_iff_no_available (agents : List Agent) (tickets : List Ticket)
    (hwf : ∀ a ∈ agents, a.WF) :
    ((∀ a ∈ agents, a.availability_status ≠ "Available") →
      assign_tickets agents tickets = [] ∧
      assign_warnings agents tickets = (sort_tickets_by_priority tickets).map warningFor) ∧
    ((∃ a ∈ agents, a.availability_status = "Available") →
      (assign_tickets agents tickets).length = tickets.length ∧
      assign_warnings agents tickets = []) := by
  constructor
  · intro h
    have heq := assignLoop_no_avail agents h (sort_tickets_by_priority tickets) fun _ => 0
    unfold assign_tickets assign_warnings
    rw [heq]
    exact ⟨rfl, rfl⟩
  · intro h
    have h2 := assignLoop_all_avail agents hwf h (sort_tickets_by_priority tickets) fun _ => 0
    unfold assign_tickets assign_warnings
    refine ⟨?_, h2.2⟩
    rw [h2.1]
    exact (List.perm_insertionSort ticket_priority_ge tickets).length_eq

/-- C3, witness: a batch with a single Busy agent assigns nothing, a
batch with a single Available agent assigns its one ticket and warns
nowhere. -/
theorem C3_witness :
    assign_tickets [⟨"B1", "b", [], 0, "Busy", 0⟩] [⟨"T1", "x", "y"⟩] = [] ∧
    (assign_tickets [⟨"A1", "a", [], 0, "Available", 0⟩] [⟨"T1", "x", "y"⟩]).length = 1 ∧
    assign_warnings [⟨"A1", "a", [], 0, "Available", 0⟩] [⟨"T1", "x", "y"⟩] = [] :=
  ⟨((C3_skip_iff_no_available [⟨"B1", "b", [], 0, "Busy", 0⟩] [⟨"T1", "x", "y"⟩]
      (by decide)).1 (by decide)).1,
   ((C3_skip_iff_no_available [⟨"A1", "a", [], 0, "Available", 0⟩] [⟨"T1", "x", "y"⟩]
      (by decide)).2 ⟨⟨"A1", "a", [], 0, "Available", 0⟩, by simp, rfl⟩).1,
   ((C3_skip_iff_no_available [⟨"A1", "a", [], 0, "Available", 0⟩] [⟨"T1", "x", "y"⟩]
      (by decide)).2 ⟨⟨"A1", "a", [], 0, "Available", 0⟩, by simp, rfl⟩).2⟩

/-- C7: the allocator visits the tickets as ordered by the stable
descending-priority sort: the visited sequence is a permutation of the
input, pairwise non-increasing in priority, agrees with the input on
every equal-priority class (stability), and the output assignment list
follows that allocation order (its ticket ids form a sublist of the
sorted ticket ids), so every ticket is visited exactly once. -/
theorem C7_allocation_order (agents : List Agent) (tickets : List Ticket) :
    (sort_tickets_by_priority tickets).Perm tickets ∧
    (sort_tickets_by_priority tickets).Pairwise
      (fun a b => calculate_ticket_priority b ≤ calculate_ticket_priority a) ∧
    (∀ p : ℚ,
      (sort_tickets_by_priority tickets).filter
          (fun u => decide (calculate_ticket_priority u = p))
        = tickets.filter fun u => decide (calculate_ticket_priority u = p)) ∧
    List.Sublist ((assign_tickets agents tickets).map Assignment.ticket_id)
      ((sort_tickets_by_priority tickets).map Ticket.ticket_id) := by
  refine ⟨List.perm_insertionSort _ _, ?_, fun p => filter_sort_tickets p tickets, ?_⟩
  · exact List.sorted_insertionSort ticket_priority_ge tickets
  · exact assignLoop_ids_sublist agents (sort_tickets_by_priority tickets) fun _ => 0

/-- C8: with well-formed agents and at least one Available agent, the
per-ticket selection returns an Available agent at some position of the
agent list whose composite score strictly exceeds every Available agent
before it and is at least the score of every Available agent after it:
the strictly greatest score wins and the first-seen candidate wins exact
ties. -/
theorem C8_argmax_first_tie (t : Ticket) (counts : String → Nat) (agents : List Agent)
    (hwf : ∀ a ∈ agents, a.WF)
    (hav : ∃ a ∈ agents, a.availability_status = "Available") :
    ∃ ag l1 l2,
      agents = l1 ++ ag :: l2 ∧ ag.availability_status = "Available" ∧
      findBest t counts agents (-1) none
        = ((calculate_composite_score_with_fairness t ag (counts ag.agent_id)).1,
           some (ag, (calculate_composite_score_with_fairness t ag (counts ag.agent_id)).2)) ∧
      (∀ a ∈ l1, a.availability_status = "Available" →
        (calculate_composite_score_with_fairness t a (counts a.agent_id)).1
          < (calculate_composite_score_with_fairness t ag (counts ag.agent_id)).1) ∧
      (∀ a ∈ l2, a.availability_status = "Available" →
        (calculate_composite_score_with_fairness t a (counts a.agent_id)).1
          ≤ (calculate_composite_score_with_fairness t ag (counts ag.agent_id)).1) := by
  rcases findBest_spec t counts agents (-1) none with ⟨heq, hall⟩ |
    ⟨ag, l1, l2, heq, hsplit, hagav, hbs, hl1, hl2⟩
  · exfalso
    obtain ⟨a, ha, hava⟩ := hav
    have h1 := hall a ha hava
    have h2 := composite_score_pos t a (counts a.agent_id) (hwf a ha)
    linarith
  · exact ⟨ag, l1, l2, hsplit, hagav, heq, hl1, hl2⟩

/-- C8, witness at a concrete one-agent batch: the selection hypothesis
holds and a candidate is indeed returned. -/
theorem C8_witness :
    (findBest ⟨"T1", "lan", ""⟩ (fun _ => 0)
        [⟨"A1", "a", [("Networking", 2)], 0, "Available", 5⟩] (-1) none).2.isSome = true := by
  obtain ⟨ag, l1, l2, hsplit, hagav, heq, -, -⟩ :=
    C8_argmax_first_tie ⟨"T1", "lan", ""⟩ (fun _ => 0)
      [⟨"A1", "a", [("Networking", 2)], 0, "Available", 5⟩] (by decide)
      ⟨⟨"A1", "a", [("Networking", 2)], 0, "Available", 5⟩, by simp, rfl⟩
  rw [heq]
  rfl

/-- C9: the allocator is a pure deterministic function of the agent list
and the ticket list: two runs on identical input produce identical
assignment lists, rationale strings included (assignment equality is
field-wise and covers the rationale field). -/
theorem C9_determinism (agents1 agents2 : List Agent) (tickets1 tickets2 : List Ticket)
    (ha : agents1 = agents2) (ht : tickets1 = tickets2) :
    assign_tickets agents1 tickets1 = assign_tickets agents2 tickets2 := by
  rw [ha, ht]

/-- C9, witness: two identical concrete runs coincide. -/
theorem C9_witness :
    assign_tickets [⟨"A1", "a", [("Networking", 2)], 0, "Available", 5⟩] [⟨"T1", "lan", ""⟩]
      = assign_tickets [⟨"A1", "a", [("Networking", 2)], 0, "Available", 5⟩] [⟨"T1", "lan", ""⟩] :=
  C9_determinism _ _ _ _ rfl rfl

/-- C4: every ticket priority lies in [1, 5], equals the closed form
min(1 + 2·(distinct high matches) + (distinct medium matches), 5), and is
monotonically non-decreasing in the two distinct-match counts.  The
priority function takes only the ticket, so it cannot depend on any
agent. -/
theorem C4_priority_bounds (t t1 t2 : Ticket)
    (hh : high_priority_keywords.countP (ticketMatches t1)
        ≤ high_priority_keywords.countP (ticketMatches t2))
    (hm : medium_priority_keywords.countP (ticketMatches t1)
        ≤ medium_priority_keywords.countP (ticketMatches t2)) :
    1 ≤ calculate_ticket_priority t ∧ calculate_ticket_priority t ≤ 5 ∧
    calculate_ticket_priority t
      = min (1 + 2 * (high_priority_keywords.countP (ticketMatches t) : ℚ)
               + (medium_priority_keywords.countP (ticketMatches t) : ℚ)) 5 ∧
    calculate_ticket_priority t1 ≤ calculate_ticket_priority t2 := by
  refine ⟨one_le_ticket_priority t, ticket_priority_le_five t, ticket_priority_eq_counts t, ?_⟩
  rw [ticket_priority_eq_counts t1, ticket_priority_eq_counts t2]
  have hh2 : (high_priority_keywords.countP (ticketMatches t1) : ℚ)
      ≤ (high_priority_keywords.countP (ticketMatches t2) : ℚ) := by exact_mod_cast hh
  have hm2 : (medium_priority_keywords.countP (ticketMatches t1) : ℚ)
      ≤ (medium_priority_keywords.countP (ticketMatches t2) : ℚ) := by exact_mod_cast hm
  exact min_le_min (by linarith) le_rfl

/-- C4, witness at two concrete tickets with comparable match counts. -/
theorem C4_witness :
    1 ≤ calculate_ticket_priority ⟨"T0", "hello", "world"⟩ ∧
    calculate_ticket_priority ⟨"T0", "hello", "world"⟩ ≤ 5 ∧
    calculate_ticket_priority ⟨"T0", "hello", "world"⟩
      = min (1
          + 2 * (high_priority_keywords.countP (ticketMatches ⟨"T0", "hello", "world"⟩) : ℚ)
          + (medium_priority_keywords.countP (ticketMatches ⟨"T0", "hello", "world"⟩) : ℚ)) 5 ∧
    calculate_ticket_priority ⟨"T0", "hello", "world"⟩
      ≤ calculate_ticket_priority ⟨"T2", "critical error", ""⟩ :=
  C4_priority_bounds ⟨"T0", "hello", "world"⟩ ⟨"T0", "hello", "world"⟩
    ⟨"T2", "critical error", ""⟩ (by decide) (by decide)

/-- C5: whenever the skill score is strictly below 5 the composite score
equals exactly 0.3 times the penalty-free weighted value, and whenever
the skill score is at least 5 the recorded penalty factor is 1. -/
theorem C5_skill_floor_penalty (t : Ticket) (a : Agent) (c : Nat) :
    ((calculate_skill_match_score t a).1 < 5 →
      (calculate_composite_score_with_fairness t a c).1
        = 0.3 * (((calculate_skill_match_score t a).1 * 0.6
            + calculate_workload_score a c * 0.3
            + (calculate_experience_score a : ℝ) * 0.1)
          * (calculate_ticket_priority t : ℝ))) ∧
    (5 ≤ (calculate_skill_match_score t a).1 →
      (calculate_composite_score_with_fairness t a c).2.skill_penalty = 1) := by
  unfold calculate_composite_score_with_fairness
  dsimp only
  constructor
  · intro h
    rw [if_pos h]
    ring
  · intro h
    rw [if_neg (not_lt.mpr h)]

/-- C5, witness: a skill-less agent scores 0 < 5 and gets the 0.3
penalty; an agent whose single skill matches the ticket reaches skill
score 10 ≥ 5 and penalty factor 1. -/
theorem C5_witness :
    (calculate_skill_match_score ⟨"T9", "zz", ""⟩ ⟨"A1", "a", [], 0, "Available", 0⟩).1 < 5 ∧
    (calculate_composite_score_with_fairness ⟨"T9", "zz", ""⟩
        ⟨"A1", "a", [], 0, "Available", 0⟩ 0).1
      = 0.3 * (((calculate_skill_match_score ⟨"T9", "zz", ""⟩
            ⟨"A1", "a", [], 0, "Available", 0⟩).1 * 0.6
          + calculate_workload_score ⟨"A1", "a", [], 0, "Available", 0⟩ 0 * 0.3
          + (calculate_experience_score ⟨"A1", "a", [], 0, "Available", 0⟩ : ℝ) * 0.1)
        * (calculate_ticket_priority ⟨"T9", "zz", ""⟩ : ℝ)) ∧
    5 ≤ (calculate_skill_match_score ⟨"T1", "lan", ""⟩
        ⟨"A2", "b", [("Networking", 2)], 0, "Available", 0⟩).1 ∧
    (calculate_composite_score_with_fairness ⟨"T1", "lan", ""⟩
        ⟨"A2", "b", [("Networking", 2)], 0, "Available", 0⟩ 0).2.skill_penalty = 1 := by
  have h0 : (calculate_skill_match_score ⟨"T9", "zz", ""⟩
      ⟨"A1", "a", [], 0, "Available", 0⟩).1 = 0 := rfl
  have h1 : (calculate_skill_match_score ⟨"T9", "zz", ""⟩
      ⟨"A1", "a", [], 0, "Available", 0⟩).1 < 5 := by
    rw [h0]
    norm_num
  have hloop : skillLoop ⟨"T1", "lan", ""⟩ [("Networking", 2)] = (10, ["Networking"]) := by
    have hraw : raw_skill_score ⟨"T1", "lan", ""⟩ "Networking" = 5 := by decide
    have hdm : domain_multiplier ⟨"T1", "lan", ""⟩ "Networking" = 1 := by decide
    simp [skillLoop, hraw, hdm]
    norm_num
  have hs : (calculate_skill_match_score ⟨"T1", "lan", ""⟩
      ⟨"A2", "b", [("Networking", 2)], 0, "Available", 0⟩).1 = 10 := by
    simp [calculate_skill_match_score, hloop, Real.sqrt_one]
  have h5 : 5 ≤ (calculate_skill_match_score ⟨"T1", "lan", ""⟩
      ⟨"A2", "b", [("Networking", 2)], 0, "Available", 0⟩).1 := by
    rw [hs]
    norm_num
  exact ⟨h1, (C5_skill_floor_penalty ⟨"T9", "zz", ""⟩ ⟨"A1", "a", [], 0, "Available", 0⟩ 0).1 h1,
    h5, (C5_skill_floor_penalty ⟨"T1", "lan", ""⟩
      ⟨"A2", "b", [("Networking", 2)], 0, "Available", 0⟩ 0).2 h5⟩

/-- C6, counterexample.  The claim asserts the experience score is
clamped into [0, 1] for every integer experience level; the code applies
no lower clamp, so an agent with experience level -1 scores -1/15 < 0. -/
theorem C6_counterexample :
    calculate_experience_score ⟨"A1", "a", [], 0, "Available", -1⟩ < 0 := by
  have hmin : min (-1 : Int) 15 = -1 := by decide
  unfold calculate_experience_score
  rw [show (⟨"A1", "a", [], 0, "Available", -1⟩ : Agent).experience_level = -1 from rfl, hmin]
  norm_num

/-- C6, amended: the experience score always equals
min(experience_level, 15) / 15, and it lies in [0, 1] whenever the
experience level is non-negative. -/
theorem C6_experience_amended (a : Agent) :
    calculate_experience_score a = ((min a.experience_level 15 : Int) : ℚ) / 15 ∧
    (0 ≤ a.experience_level →
      0 ≤ calculate_experience_score a ∧ calculate_experience_score a ≤ 1) :=
  ⟨rfl, fun h => ⟨experience_score_nonneg a h, experience_score_le_one a⟩⟩

/-- C6, witness at a concrete agent with experience level 20. -/
theorem C6_witness :
    calculate_experience_score ⟨"A2", "b", [], 0, "Available", 20⟩
      = ((min (20 : Int) 15 : Int) : ℚ) / 15 ∧
    0 ≤ calculate_experience_score ⟨"A2", "b", [], 0, "Available", 20⟩ ∧
    calculate_experience_score ⟨"A2", "b", [], 0, "Available", 20⟩ ≤ 1 :=
  ⟨(C6_experience_amended ⟨"A2", "b", [], 0, "Available", 20⟩).1,
   (C6_experience_amended ⟨"A2", "b", [], 0, "Available", 20⟩).2 (by decide)⟩

/-- C10: with strictly positive proficiency levels, the normalized skill
match score is non-negative; the matched-skill list consists exactly of
the skills with strictly positive raw text score, in order; and a
matched skill's weighted contribution raw × level × multiplier is
strictly positive, every domain multiplier being strictly positive, so
the multiplier never removes a matched skill nor zeroes its
contribution. -/
theorem C10_skill_match_properties (t : Ticket) (a : Agent)
    (hlv : ∀ p ∈ a.skills, (0 : Int) < p.2) :
    0 ≤ (calculate_skill_match_score t a).1 ∧
    (calculate_skill_match_score t a).2
      = (a.skills.filter fun p => decide (0 < raw_skill_score t p.1)).map Prod.fst ∧
    (∀ p ∈ a.skills, 0 < raw_skill_score t p.1 →
      0 < (raw_skill_score t p.1 : ℚ) * (p.2 : ℚ) * domain_multiplier t p.1) ∧
    (∀ s : String, 0 < domain_multiplier t s) := by
  refine ⟨skill_match_score_nonneg t a (fun p hp => (hlv p hp).le), skill_match_snd t a,
    ?_, domain_multiplier_pos t⟩
  intro p hp hraw
  have h1 : (0 : ℚ) < (raw_skill_score t p.1 : ℚ) := by exact_mod_cast hraw
  have h2 : (0 : ℚ) < (p.2 : ℚ) := by exact_mod_cast hlv p hp
  exact mul_pos (mul_pos h1 h2) (domain_multiplier_pos t p.1)

/-- C10, witness at a concrete matching agent and ticket. -/
theorem C10_witness :
    0 ≤ (calculate_skill_match_score ⟨"T1", "lan", ""⟩
        ⟨"A1", "a", [("Networking", 2)], 0, "Available", 5⟩).1 ∧
    (calculate_skill_match_score ⟨"T1", "lan", ""⟩
        ⟨"A1", "a", [("Networking", 2)], 0, "Available", 5⟩).2
      = ((([("Networking", (2 : Int))]).filter
          fun p => decide (0 < raw_skill_score ⟨"T1", "lan", ""⟩ p.1)).map Prod.fst) ∧
    0 < (raw_skill_score ⟨"T1", "lan", ""⟩ "Networking" : ℚ) * ((2 : Int) : ℚ)
        * domain_multiplier ⟨"T1", "lan", ""⟩ "Networking" ∧
    0 < domain_multiplier ⟨"T1", "lan", ""⟩ "Networking" := by
  obtain ⟨hn, hm, hc, hd⟩ := C10_skill_match_properties ⟨"T1", "lan", ""⟩
    ⟨"A1", "a", [("Networking", 2)], 0, "Available", 5⟩ (by decide)
  exact ⟨hn, hm, hc ("Networking", 2) (by simp) (by decide), hd "Networking"⟩
